import Mathlib

/-!
Shallow embedding of `homework.py` (together with the exception classes of
`exeptions.py`): a Telegram bot that polls the Practicum homework-review API
on a fixed interval and forwards status changes.

Python runtime values that the program manipulates are modelled by `PyVal`;
exceptions by `PyErr` (each carrying the string that `str(error)` yields,
since `main` turns caught exceptions into candidate messages via
`new_message = str(error)`).  The network and the Telegram channel are
modelled as per-iteration oracles (`FetchOutcome`, `TelegramResult`): the
functions of the source are translated over those oracles.
-/

set_option maxHeartbeats 1000000

/-- A Python value as far as this program can observe one: `None`, `int`,
`str`, `bool`, a list, or a string-keyed dict (JSON payloads decode to
exactly these). -/
inductive PyVal : Type where
  | pyNone : PyVal
  | int : Int → PyVal
  | str : String → PyVal
  | bool : Bool → PyVal
  | list : List PyVal → PyVal
  | dict : List (String × PyVal) → PyVal

/-- Python `d.get(key)`: the stored value, or `None` when the key is absent. -/
def dictGet (entries : List (String × PyVal)) (key : String) : PyVal :=
  match entries.lookup key with
  | some v => v
  | none => PyVal.pyNone

/-- Python `key in d`. -/
def dictHasKey (entries : List (String × PyVal)) (key : String) : Bool :=
  (entries.lookup key).isSome

/-- Python `v is None`. -/
def pyIsNone : PyVal → Bool
  | PyVal.pyNone => true
  | _ => false

/-- Python `type(v).__name__`, used in the `AttributeError` message text. -/
def pyTypeName : PyVal → String
  | PyVal.pyNone => "NoneType"
  | PyVal.int _ => "int"
  | PyVal.str _ => "str"
  | PyVal.bool _ => "bool"
  | PyVal.list _ => "list"
  | PyVal.dict _ => "dict"

mutual

/-- Python `repr(v)` (string quoting approximated with single quotes). -/
def pyRepr : PyVal → String
  | PyVal.pyNone => "None"
  | PyVal.int n => toString n
  | PyVal.str s => "\x27" ++ s ++ "\x27"
  | PyVal.bool b => if b then "True" else "False"
  | PyVal.list xs => "[" ++ pyReprList xs ++ "]"
  | PyVal.dict es => "\x7b" ++ pyReprEntries es ++ "\x7d"

def pyReprList : List PyVal → String
  | [] => ""
  | [x] => pyRepr x
  | x :: y :: xs => pyRepr x ++ ", " ++ pyReprList (y :: xs)

def pyReprEntries : List (String × PyVal) → String
  | [] => ""
  | [e] => "\x27" ++ e.1 ++ "\x27: " ++ pyRepr e.2
  | e :: f :: es => "\x27" ++ e.1 ++ "\x27: " ++ pyRepr e.2 ++ ", " ++ pyReprEntries (f :: es)

end

/-- Python `str(v)` as an f-string renders it. -/
def pyStr : PyVal → String
  | PyVal.str s => s
  | v => pyRepr v

/-- The exceptions the program raises or catches, each carrying the text that
`str(error)` produces for it (`main` stores that text into `new_message`).
The first four are builtins, the rest come from `exeptions.py`. -/
inductive PyErr : Type where
  | typeError : String → PyErr
  | keyError : String → PyErr
  | valueError : String → PyErr
  | attributeError : String → PyErr
  | apiRequestError : String → PyErr
  | apiTimeoutError : String → PyErr
  | apiUnauthorized : String → PyErr
  | connectionError : String → PyErr
  | apiIncorrectParametersError : String → PyErr
deriving DecidableEq

/-- Python `str(error)`.  `str` of a `KeyError` wraps the argument in the
quotes of its `repr`; for the other exception classes used here it is the
message itself. -/
def errStr : PyErr → String
  | PyErr.typeError m => m
  | PyErr.keyError m => "\x27" ++ m ++ "\x27"
  | PyErr.valueError m => m
  | PyErr.attributeError m => m
  | PyErr.apiRequestError m => m
  | PyErr.apiTimeoutError m => m
  | PyErr.apiUnauthorized m => m
  | PyErr.connectionError m => m
  | PyErr.apiIncorrectParametersError m => m

/-- `ENDPOINT` constant of `homework.py`. -/
def ENDPOINT : String := "https://practicum.yandex.ru/api/user_api/homework_statuses/"

/-- `RETRY_TIME` constant of `homework.py`. -/
def RETRY_TIME : Nat := 600

/-- `HOMEWORK_STATUSES` constant of `homework.py`. -/
def HOMEWORK_STATUSES : List (String × String) :=
  [("approved", "Работа проверена: ревьюеру всё понравилось. Ура!"),
   ("reviewing", "Работа взята на проверку ревьюером."),
   ("rejected", "Работа проверена: у ревьюера есть замечания.")]

/-- Python `status in HOMEWORK_STATUSES` (dict key membership).  An
unhashable value (list/dict) makes `in` itself raise `TypeError`; any other
non-key value is simply not a member. -/
def statusMember : PyVal → Except PyErr Bool
  | PyVal.str s => Except.ok ((HOMEWORK_STATUSES.lookup s).isSome)
  | PyVal.list _ => Except.error (PyErr.typeError "unhashable type: \x27list\x27")
  | PyVal.dict _ => Except.error (PyErr.typeError "unhashable type: \x27dict\x27")
  | _ => Except.ok false

/-- The outcome of the one `requests.get` call of an iteration, as the
program can observe it after `requests` has followed any redirects:
a connection-level failure, a timeout, some other `RequestException`
(e.g. too many redirects), or a final HTTP response.  A response carries its
status code, the text that `str` of the `HTTPError` raised by
`raise_for_status` would render (supplied by the library, hence a parameter),
and `some payload` when the body decodes as JSON or `none` when `.json()`
raises. -/
inductive FetchOutcome : Type where
  | connError : FetchOutcome
  | timeout : FetchOutcome
  | otherRequestException : FetchOutcome
  | response : Nat → String → Option PyVal → FetchOutcome

/-- `get_api_answer(current_timestamp)` of `homework.py`, as a function of
the transport outcome.  `response.raise_for_status()` raises `HTTPError`
exactly for status codes 400–599; the handler re-raises 401 as
`APIUnauthorized`, 400 as `APIIncorrectParametersError`, and any other
`HTTPError` as `APIRequestError`.  A `Timeout` becomes `APITimeoutError`, a
connection error the custom `ConnectionError`, and any other
`RequestException` — including the `JSONDecodeError` that `.json()` raises
on a malformed body — becomes `APIRequestError` with the endpoint message.
A response whose status does not trigger `raise_for_status` (2xx, but also
e.g. 300 or 304) has its decoded body returned.  The `current_timestamp`
argument only feeds the `from_date` query parameter. -/
def get_api_answer (current_timestamp : PyVal) (outcome : FetchOutcome) :
    Except PyErr PyVal :=
  match current_timestamp, outcome with
  | _, FetchOutcome.response status errText body =>
    if 400 ≤ status ∧ status < 600 then
      if status = 401 then
        Except.error (PyErr.apiUnauthorized "Предоставлены некорректные учетные данные")
      else if status = 400 then
        Except.error (PyErr.apiIncorrectParametersError
          "Некорректный формат переданного параметра from_date")
      else
        Except.error (PyErr.apiRequestError ("HTTPError " ++ errText))
    else
      match body with
      | some payload => Except.ok payload
      | none => Except.error (PyErr.apiRequestError
          ("Ошибка при запросе к эндпоинту: " ++ ENDPOINT))
  | _, FetchOutcome.connError =>
      Except.error (PyErr.connectionError "Возникли проблемы с соединением")
  | _, FetchOutcome.timeout =>
      Except.error (PyErr.apiTimeoutError "Истекло время ожидания ответа  от сервера")
  | _, FetchOutcome.otherRequestException =>
      Except.error (PyErr.apiRequestError ("Ошибка при запросе к эндпоинту: " ++ ENDPOINT))

/-- `check_response(response)` of `homework.py`: reject a non-dict, a dict
without the key `homeworks`, a dict without the key `current_date`, and a
`homeworks` value that is not a list — in that order; otherwise return the
`homeworks` list.  (The value under `current_date` is never inspected.) -/
def check_response (response : PyVal) : Except PyErr (List PyVal) :=
  match response with
  | PyVal.dict entries =>
    if dictHasKey entries "homeworks" = false then
      Except.error (PyErr.keyError "Ключ homeworks отсутствует в ответе API")
    else if dictHasKey entries "current_date" = false then
      Except.error (PyErr.keyError "Ключ current_date отсутствует в ответе API")
    else
      match dictGet entries "homeworks" with
      | PyVal.list homeworks => Except.ok homeworks
      | _ => Except.error (PyErr.typeError "Значение по ключу homeworks не является списком")
  | _ => Except.error (PyErr.typeError "Ответ API не является словарем")

/-- `parse_status(homework)` of `homework.py`: `homework.get(...)` on a
non-dict raises `AttributeError`; a `None` result for `homework_name` or for
`status` (the key absent, or present with value `None`) raises `KeyError`;
a status that is not a key of `HOMEWORK_STATUSES` raises `ValueError`;
otherwise the message is built from the name and the verdict. -/
def parse_status (homework : PyVal) : Except PyErr String :=
  match homework with
  | PyVal.dict entries =>
    let homework_name := dictGet entries "homework_name"
    let homework_status := dictGet entries "status"
    if pyIsNone homework_name then
      Except.error (PyErr.keyError "Отсутствует ключ homework_name")
    else if pyIsNone homework_status then
      Except.error (PyErr.keyError "Отсутствует ключ status")
    else
      match statusMember homework_status with
      | Except.error e => Except.error e
      | Except.ok false =>
          Except.error (PyErr.valueError
            ("Неизвестный статус работы: " ++ pyStr homework_status))
      | Except.ok true =>
          match homework_status with
          | PyVal.str s =>
            match HOMEWORK_STATUSES.lookup s with
            | some verdict =>
                Except.ok ("Изменился статус проверки работы \"" ++
                  pyStr homework_name ++ "\". " ++ verdict)
            | none => Except.error (PyErr.keyError "unreachable: membership checked")
          | _ => Except.error (PyErr.keyError "unreachable: membership checked")
  | other =>
      Except.error (PyErr.attributeError
        ("\x27" ++ pyTypeName other ++ "\x27 object has no attribute \x27get\x27"))

/-- Whether the one `bot.sendMessage` call of an iteration succeeds or
raises `telegram.TelegramError` — decided by the channel, so an oracle. -/
inductive TelegramResult : Type where
  | sent : TelegramResult
  | telegramError : TelegramResult

/-- `send_message(bot, message)` of `homework.py`: `True` when the
`sendMessage` call succeeds, `False` when it raises `TelegramError`
(the exception is swallowed and logged). -/
def send_message (channel : TelegramResult) (message : Option String) : Bool :=
  match channel, message with
  | TelegramResult.sent, _ => true
  | TelegramResult.telegramError, _ => false

/-- The three environment variables read at import time.  `None` models an
unset variable. -/
structure Env : Type where
  PRACTICUM_TOKEN : Option String
  TELEGRAM_TOKEN : Option String
  TELEGRAM_CHAT_ID : Option String

/-- Python truthiness of an `os.getenv` result: `None` and the empty string
are falsy. -/
def envTruthy : Option String → Bool
  | none => false
  | some s => !(s = "")

/-- `check_tokens()` of `homework.py`: logs one critical line per missing
variable and returns `True` only when all three are set (and non-empty). -/
def check_tokens (env : Env) : Bool :=
  envTruthy env.PRACTICUM_TOKEN && envTruthy env.TELEGRAM_TOKEN &&
    envTruthy env.TELEGRAM_CHAT_ID

/-- The loop-carried variables of `main`: `current_timestamp` (assigned from
`homework_status.get('current_date')`, hence an arbitrary `PyVal` after the
first advance), `last_message` and `new_message` (both initialised to
`None`, and only ever reassigned to message strings). -/
structure LoopState : Type where
  current_timestamp : PyVal
  last_message : Option String
  new_message : Option String

/-- The environment of one iteration: the network outcome of the
`requests.get` call and the channel outcome of a `bot.sendMessage` call,
should one be made. -/
structure IterInput : Type where
  fetch : FetchOutcome
  telegram : TelegramResult

/-- The `try` block of one iteration of `main`:
`get_api_answer`, then `check_response`, then — only when the returned list
is non-empty — `parse_status(homeworks[0])` overwriting `new_message`
(an empty list leaves `new_message` as it was and only logs).  On success it
yields the (possibly kept) `new_message` together with `homework_status`,
which the `else` clause reads `current_date` from. -/
def tryBody (current_timestamp : PyVal) (fetch : FetchOutcome)
    (new_message : Option String) : Except PyErr (Option String × PyVal) :=
  match get_api_answer current_timestamp fetch with
  | Except.error e => Except.error e
  | Except.ok homework_status =>
    match check_response homework_status with
    | Except.error e => Except.error e
    | Except.ok homeworks =>
      match homeworks with
      | [] => Except.ok (new_message, homework_status)
      | hw :: _ =>
        match parse_status hw with
        | Except.error e => Except.error e
        | Except.ok m => Except.ok (some m, homework_status)

/-- `homework_status.get('current_date')` — `homework_status` is a dict
whenever this is reached, because `check_response` has accepted it. -/
def currentDateOf : PyVal → PyVal
  | PyVal.dict entries => dictGet entries "current_date"
  | _ => PyVal.pyNone

/-- The value of `new_message` after the `try/except` part of one
iteration: what the `try` block left there when it completed, or
`str(error)` of the exception the `except Exception` handler caught. -/
def iterMessage (st : LoopState) (inp : IterInput) : Option String :=
  match tryBody st.current_timestamp inp.fetch st.new_message with
  | Except.ok (m, _) => m
  | Except.error e => some (errStr e)

/-- The value of `current_timestamp` after the `try/except/else` part of
one iteration: the `else` clause `current_timestamp =
homework_status.get('current_date')` runs exactly when the `try` block
completed without an exception. -/
def iterCursor (st : LoopState) (inp : IterInput) : PyVal :=
  match tryBody st.current_timestamp inp.fetch st.new_message with
  | Except.ok (_, homework_status) => currentDateOf homework_status
  | Except.error _ => st.current_timestamp

/-- One full iteration of the `while True:` body of `main`: the
`try/except/else` chain (split into `iterMessage` and `iterCursor` above)
followed by the `finally` clause, which calls `send_message` iff
`last_message != new_message` and updates `last_message` to `new_message`
iff that call returned `True`.  Returns the new state together with the
list of messages passed to `send_message` this iteration. -/
def iterate (st : LoopState) (inp : IterInput) :
    LoopState × List (Option String) :=
  let new_message := iterMessage st inp
  let current_timestamp := iterCursor st inp
  if st.last_message ≠ new_message then
    if send_message inp.telegram new_message then
      ({ current_timestamp := current_timestamp, last_message := new_message,
         new_message := new_message }, [new_message])
    else
      ({ current_timestamp := current_timestamp, last_message := st.last_message,
         new_message := new_message }, [new_message])
  else
    ({ current_timestamp := current_timestamp, last_message := st.last_message,
       new_message := new_message }, [])

/-- Finitely many iterations of the loop, threading the state and
concatenating the `send_message` calls of each iteration. -/
def runLoop (st : LoopState) : List IterInput → LoopState × List (Option String)
  | [] => (st, [])
  | inp :: rest =>
    let step := iterate st inp
    let tail := runLoop step.1 rest
    (tail.1, step.2 ++ tail.2)

/-- `int(time.time() - (30 * 24 * 60 * 60))`: the startup cursor, thirty
days before the current wall-clock second. -/
def initial_timestamp (now : Int) : Int := now - (30 * 24 * 60 * 60)

/-- The loop state as `main` enters `while True:`. -/
def initState (now : Int) : LoopState :=
  { current_timestamp := PyVal.int (initial_timestamp now),
    last_message := none, new_message := none }

/-- What an observer of the whole process sees: the exit status if the
process terminated during startup (`sys.exit()` raises `SystemExit(None)`,
which the interpreter turns into exit status `0`), the number of
`requests.get` calls made, the `send_message` calls, and the loop state
after the given iterations (absent when the loop was never entered). -/
structure MainTrace : Type where
  exitCode : Option Nat
  apiRequests : Nat
  notifierCalls : List (Option String)
  finalState : Option LoopState

/-- `main()` of `homework.py` observed over finitely many iterations: when
`check_tokens()` is false, `sys.exit()` terminates the process (status `0`)
before the `telegram.Bot` is built and before any network request; otherwise
the loop runs, one `requests.get` per iteration. -/
def main_run (env : Env) (now : Int) (inputs : List IterInput) : MainTrace :=
  if check_tokens env then
    let r := runLoop (initState now) inputs
    { exitCode := none, apiRequests := inputs.length,
      notifierCalls := r.2, finalState := some r.1 }
  else
    { exitCode := some 0, apiRequests := 0, notifierCalls := [], finalState := none }

/-! ### Concrete fixtures used by witnesses and counterexamples -/

/-- A submission dict as the API delivers one. -/
def wHw : PyVal :=
  PyVal.dict [("homework_name", PyVal.str "hw1"), ("status", PyVal.str "approved")]

/-- The message `parse_status` builds for `wHw`. -/
def wMsg : String :=
  "Изменился статус проверки работы \"hw1\". Работа проверена: ревьюеру всё понравилось. Ура!"

/-- A validated response with one submission and the given `current_date`. -/
def wRespHw (d : Int) : PyVal :=
  PyVal.dict [("homeworks", PyVal.list [wHw]), ("current_date", PyVal.int d)]

/-- A validated response with an empty submission list. -/
def wRespEmpty (d : Int) : PyVal :=
  PyVal.dict [("homeworks", PyVal.list []), ("current_date", PyVal.int d)]

/-- A 200 response carrying the given payload. -/
def wOk (r : PyVal) (t : TelegramResult) : IterInput :=
  { fetch := FetchOutcome.response 200 "" (some r), telegram := t }

/-- The state `main` starts its loop in when `time.time()` is `2592005`. -/
def wState : LoopState := initState 2592005

/-- An iteration whose fetch dies with a connection error. -/
def wConnInput : IterInput :=
  { fetch := FetchOutcome.connError, telegram := TelegramResult.sent }

/-- The state after one iteration of `wState` in which the single
submission was formatted but Telegram delivery failed: `new_message` holds
the candidate, `last_message` is still `None`, the cursor advanced to 900. -/
def c2State : LoopState :=
  (iterate wState (wOk (wRespHw 900) TelegramResult.telegramError)).1

/-- An environment with the destination identifier missing. -/
def c7Env : Env :=
  { PRACTICUM_TOKEN := some "token", TELEGRAM_TOKEN := some "token",
    TELEGRAM_CHAT_ID := none }

/-! ### Helper lemmas about one iteration -/

theorem iterate_cursor (st : LoopState) (inp : IterInput) :
    (iterate st inp).1.current_timestamp = iterCursor st inp := by
  unfold iterate
  by_cases h : st.last_message ≠ iterMessage st inp
  · by_cases hs : send_message inp.telegram (iterMessage st inp) = true <;> simp [h, hs]
  · simp [h]

theorem iterate_new_message (st : LoopState) (inp : IterInput) :
    (iterate st inp).1.new_message = iterMessage st inp := by
  unfold iterate
  by_cases h : st.last_message ≠ iterMessage st inp
  · by_cases hs : send_message inp.telegram (iterMessage st inp) = true <;> simp [h, hs]
  · simp [h]

theorem iterate_calls (st : LoopState) (inp : IterInput) :
    (iterate st inp).2 =
      if st.last_message ≠ iterMessage st inp then [iterMessage st inp] else [] := by
  unfold iterate
  by_cases h : st.last_message ≠ iterMessage st inp
  · by_cases hs : send_message inp.telegram (iterMessage st inp) = true <;> simp [h, hs]
  · simp [h]

theorem iterate_last_delivered (st : LoopState) (inp : IterInput)
    (h : st.last_message ≠ iterMessage st inp)
    (hs : send_message inp.telegram (iterMessage st inp) = true) :
    (iterate st inp).1.last_message = iterMessage st inp := by
  unfold iterate
  simp [h, hs]

theorem iterate_last_not_delivered (st : LoopState) (inp : IterInput)
    (hs : send_message inp.telegram (iterMessage st inp) = false) :
    (iterate st inp).1.last_message = st.last_message := by
  unfold iterate
  by_cases h : st.last_message ≠ iterMessage st inp
  · simp [h, hs]
  · simp [h]

theorem iterate_last_suppressed (st : LoopState) (inp : IterInput)
    (h : st.last_message = iterMessage st inp) :
    (iterate st inp).1.last_message = st.last_message := by
  unfold iterate
  simp [h]

theorem tryBody_error_of_fetch (ts : PyVal) (fetch : FetchOutcome)
    (nm : Option String) (e : PyErr)
    (h : get_api_answer ts fetch = Except.error e) :
    tryBody ts fetch nm = Except.error e := by
  simp only [tryBody, h]

theorem tryBody_error_of_check (ts : PyVal) (fetch : FetchOutcome)
    (nm : Option String) (resp : PyVal) (e : PyErr)
    (hf : get_api_answer ts fetch = Except.ok resp)
    (hc : check_response resp = Except.error e) :
    tryBody ts fetch nm = Except.error e := by
  simp only [tryBody, hf, hc]

theorem tryBody_empty (ts : PyVal) (fetch : FetchOutcome) (nm : Option String)
    (resp : PyVal)
    (hf : get_api_answer ts fetch = Except.ok resp)
    (hc : check_response resp = Except.ok []) :
    tryBody ts fetch nm = Except.ok (nm, resp) := by
  simp only [tryBody, hf, hc]

theorem tryBody_parsed (ts : PyVal) (fetch : FetchOutcome) (nm : Option String)
    (resp hw : PyVal) (rest : List PyVal) (m : String)
    (hf : get_api_answer ts fetch = Except.ok resp)
    (hc : check_response resp = Except.ok (hw :: rest))
    (hp : parse_status hw = Except.ok m) :
    tryBody ts fetch nm = Except.ok (some m, resp) := by
  simp only [tryBody, hf, hc, hp]

theorem tryBody_ok_inv (ts : PyVal) (fetch : FetchOutcome) (nm m : Option String)
    (resp : PyVal)
    (h : tryBody ts fetch nm = Except.ok (m, resp)) :
    get_api_answer ts fetch = Except.ok resp ∧
      ∃ homeworks, check_response resp = Except.ok homeworks := by
  unfold tryBody at h
  split at h
  · cases h
  case h_2 hs hg =>
    split at h
    · cases h
    case h_2 hws hc =>
      split at h
      · injection h with h1
        injection h1 with h2 h3
        subst h3
        exact ⟨hg, _, hc⟩
      case h_2 hw rest =>
        split at h
        · cases h
        · injection h with h1
          injection h1 with h2 h3
          subst h3
          exact ⟨hg, _, hc⟩

/-! ### C1 -/

/-- C1: across any iteration of the poll loop, `current_timestamp` changes
only when both the API fetch (`get_api_answer`) and the validation
(`check_response`) succeeded, and then only to that validated response's
`current_date` value; an iteration whose fetch or validation fails leaves
the cursor untouched.  Quantifying over an arbitrary pre-state covers every
iteration of every sequence of responses. -/
theorem c1_cursor_advances_only_on_validated_success (st : LoopState) (inp : IterInput) :
    ((iterate st inp).1.current_timestamp ≠ st.current_timestamp →
      ∃ resp homeworks,
        get_api_answer st.current_timestamp inp.fetch = Except.ok resp ∧
        check_response resp = Except.ok homeworks ∧
        (iterate st inp).1.current_timestamp = currentDateOf resp) ∧
    (∀ e, (get_api_answer st.current_timestamp inp.fetch = Except.error e ∨
        (∃ resp, get_api_answer st.current_timestamp inp.fetch = Except.ok resp ∧
          check_response resp = Except.error e)) →
      (iterate st inp).1.current_timestamp = st.current_timestamp) := by
  constructor
  · intro hne
    rw [iterate_cursor] at hne ⊢
    unfold iterCursor at hne ⊢
    cases ht : tryBody st.current_timestamp inp.fetch st.new_message with
    | error e =>
      rw [ht] at hne
      exact absurd rfl hne
    | ok p =>
      obtain ⟨m, resp⟩ := p
      obtain ⟨hg, hws, hc⟩ := tryBody_ok_inv _ _ _ _ _ ht
      exact ⟨resp, hws, hg, hc, rfl⟩
  · intro e he
    rw [iterate_cursor]
    unfold iterCursor
    rcases he with hf | ⟨resp, hf, hc⟩
    · rw [tryBody_error_of_fetch _ _ st.new_message _ hf]
    · rw [tryBody_error_of_check _ _ st.new_message _ _ hf hc]

/-- Witness for C1: a concrete iteration whose fetch fails with a
connection error leaves the cursor unchanged. -/
theorem c1_cursor_advances_only_on_validated_success_witness :
    (iterate wState wConnInput).1.current_timestamp = wState.current_timestamp :=
  (c1_cursor_advances_only_on_validated_success wState wConnInput).2
    (PyErr.connectionError "Возникли проблемы с соединением") (Or.inl rfl)

/-! ### C2 -/

/-- Counterexample to C2: an iteration whose validated response has an
empty submission list, entered while a previous candidate is still
undelivered.  The cursor advances from 900 to the response's 1000, and the
Notifier is invoked (with the leftover candidate) — refuting both the
"cursor keeps its previous value" and the "Notifier is not called at all"
parts of the claim. -/
theorem c2_counterexample :
    check_response (wRespEmpty 1000) = Except.ok [] ∧
    (iterate c2State (wOk (wRespEmpty 1000) TelegramResult.sent)).2 = [some wMsg] ∧
    (iterate c2State (wOk (wRespEmpty 1000) TelegramResult.sent)).1.current_timestamp =
      PyVal.int 1000 ∧
    c2State.current_timestamp = PyVal.int 900 ∧
    ¬ (PyVal.int 1000 = PyVal.int 900) :=
  ⟨rfl, rfl, rfl, rfl, by simp⟩

/-- C2 (amended): an iteration whose validated response has an empty
submission list formats no new candidate (`new_message` keeps its previous
value) but still advances the cursor to the response's `current_date`; the
Notifier is invoked exactly when the retained candidate differs from
`last_message`, so when no undelivered candidate is pending (`last_message
= new_message`) there are zero Notifier calls and `last_message` is
unchanged. -/
theorem c2_empty_list_iteration (st : LoopState) (inp : IterInput) (resp : PyVal)
    (hf : get_api_answer st.current_timestamp inp.fetch = Except.ok resp)
    (hc : check_response resp = Except.ok []) :
    (iterate st inp).1.new_message = st.new_message ∧
    (iterate st inp).1.current_timestamp = currentDateOf resp ∧
    (iterate st inp).2 =
      (if st.last_message ≠ st.new_message then [st.new_message] else []) ∧
    (st.last_message = st.new_message →
      (iterate st inp).2 = [] ∧ (iterate st inp).1.last_message = st.last_message) := by
  have hm : iterMessage st inp = st.new_message := by
    unfold iterMessage
    rw [tryBody_empty _ _ _ _ hf hc]
  have hcur : iterCursor st inp = currentDateOf resp := by
    unfold iterCursor
    rw [tryBody_empty _ _ _ _ hf hc]
  refine ⟨?_, ?_, ?_, ?_⟩
  · rw [iterate_new_message, hm]
  · rw [iterate_cursor, hcur]
  · rw [iterate_calls, hm]
  · intro hl
    refine ⟨?_, ?_⟩
    · rw [iterate_calls, hm]
      simp [hl]
    · exact iterate_last_suppressed st inp (by rw [hm]; exact hl)

/-- Witness for the amended C2: a first-iteration empty response (no
pending candidate) yields zero Notifier calls, an unchanged `last_message`,
an unchanged `new_message`, and a cursor advanced to 1000. -/
theorem c2_empty_list_iteration_witness :
    (iterate wState (wOk (wRespEmpty 1000) TelegramResult.sent)).1.new_message =
      wState.new_message ∧
    (iterate wState (wOk (wRespEmpty 1000) TelegramResult.sent)).2 = [] ∧
    (iterate wState (wOk (wRespEmpty 1000) TelegramResult.sent)).1.last_message =
      wState.last_message :=
  ⟨(c2_empty_list_iteration wState (wOk (wRespEmpty 1000) TelegramResult.sent)
      (wRespEmpty 1000) rfl rfl).1,
   ((c2_empty_list_iteration wState (wOk (wRespEmpty 1000) TelegramResult.sent)
      (wRespEmpty 1000) rfl rfl).2.2.2 rfl).1,
   ((c2_empty_list_iteration wState (wOk (wRespEmpty 1000) TelegramResult.sent)
      (wRespEmpty 1000) rfl rfl).2.2.2 rfl).2⟩

/-! ### C3 -/

/-- C3: the dedup rule is idempotent.  If two consecutive iterations each
format the same candidate `m`, `m` differs from the last notified message,
and the first delivery succeeds, then across the two iterations
`send_message` is called exactly once — the second iteration is suppressed
because by then `last_message = m`. -/
theorem c3_dedup_idempotent (st : LoopState) (inp1 inp2 : IterInput)
    (resp1 resp2 hw1 hw2 : PyVal) (rest1 rest2 : List PyVal) (m : String)
    (h1f : get_api_answer st.current_timestamp inp1.fetch = Except.ok resp1)
    (h1c : check_response resp1 = Except.ok (hw1 :: rest1))
    (h1p : parse_status hw1 = Except.ok m)
    (h1t : inp1.telegram = TelegramResult.sent)
    (hlast : st.last_message ≠ some m)
    (h2f : get_api_answer (iterate st inp1).1.current_timestamp inp2.fetch = Except.ok resp2)
    (h2c : check_response resp2 = Except.ok (hw2 :: rest2))
    (h2p : parse_status hw2 = Except.ok m) :
    (runLoop st [inp1, inp2]).2 = [some m] := by
  have hm1 : iterMessage st inp1 = some m := by
    unfold iterMessage
    rw [tryBody_parsed _ _ _ _ _ _ _ h1f h1c h1p]
  have hcalls1 : (iterate st inp1).2 = [some m] := by
    rw [iterate_calls, hm1]
    simp [hlast]
  have hlast1 : (iterate st inp1).1.last_message = some m := by
    have h := iterate_last_delivered st inp1 (by rw [hm1]; exact hlast) (by rw [h1t]; rfl)
    rw [h, hm1]
  have hm2 : iterMessage (iterate st inp1).1 inp2 = some m := by
    unfold iterMessage
    rw [tryBody_parsed _ _ _ _ _ _ _ h2f h2c h2p]
  have hcalls2 : (iterate (iterate st inp1).1 inp2).2 = [] := by
    rw [iterate_calls, hm2, hlast1]
    simp
  simp [runLoop, hcalls1, hcalls2]

/-- Witness for C3: two identical single-submission responses in a row with
a working channel produce exactly one `send_message` call. -/
theorem c3_dedup_idempotent_witness :
    wState.last_message ≠ some wMsg ∧
    (runLoop wState [wOk (wRespHw 1000) TelegramResult.sent,
        wOk (wRespHw 1000) TelegramResult.sent]).2 = [some wMsg] :=
  ⟨by decide,
   c3_dedup_idempotent wState (wOk (wRespHw 1000) TelegramResult.sent)
     (wOk (wRespHw 1000) TelegramResult.sent) (wRespHw 1000) (wRespHw 1000)
     wHw wHw [] [] wMsg rfl rfl rfl rfl (by decide) rfl rfl rfl⟩

/-! ### C4 -/

/-- C4: when the Notifier is invoked and delivery fails, `last_message`
stays what it was, so the identical candidate still differs from it on the
following iteration and `send_message` is invoked with it again. -/
theorem c4_failed_delivery_keeps_last_and_retries (st : LoopState) (inp1 inp2 : IterInput)
    (resp1 resp2 hw1 hw2 : PyVal) (rest1 rest2 : List PyVal) (m : String)
    (h1f : get_api_answer st.current_timestamp inp1.fetch = Except.ok resp1)
    (h1c : check_response resp1 = Except.ok (hw1 :: rest1))
    (h1p : parse_status hw1 = Except.ok m)
    (h1t : inp1.telegram = TelegramResult.telegramError)
    (hlast : st.last_message ≠ some m)
    (h2f : get_api_answer (iterate st inp1).1.current_timestamp inp2.fetch = Except.ok resp2)
    (h2c : check_response resp2 = Except.ok (hw2 :: rest2))
    (h2p : parse_status hw2 = Except.ok m) :
    (iterate st inp1).2 = [some m] ∧
    (iterate st inp1).1.last_message = st.last_message ∧
    (iterate st inp1).1.last_message ≠ some m ∧
    (iterate (iterate st inp1).1 inp2).2 = [some m] := by
  have hm1 : iterMessage st inp1 = some m := by
    unfold iterMessage
    rw [tryBody_parsed _ _ _ _ _ _ _ h1f h1c h1p]
  have hl1 : (iterate st inp1).1.last_message = st.last_message :=
    iterate_last_not_delivered st inp1 (by rw [h1t]; rfl)
  have hm2 : iterMessage (iterate st inp1).1 inp2 = some m := by
    unfold iterMessage
    rw [tryBody_parsed _ _ _ _ _ _ _ h2f h2c h2p]
  refine ⟨?_, hl1, ?_, ?_⟩
  · rw [iterate_calls, hm1]
    simp [hlast]
  · rw [hl1]
    exact hlast
  · rw [iterate_calls, hm2, hl1]
    simp [hlast]

/-- Witness for C4: a failed delivery of the formatted candidate leaves
`last_message = None` and the next identical response triggers a second
`send_message` call with the same candidate. -/
theorem c4_failed_delivery_keeps_last_and_retries_witness :
    wState.last_message ≠ some wMsg ∧
    (iterate wState (wOk (wRespHw 1000) TelegramResult.telegramError)).1.last_message =
      wState.last_message ∧
    (iterate (iterate wState (wOk (wRespHw 1000) TelegramResult.telegramError)).1
        (wOk (wRespHw 1000) TelegramResult.sent)).2 = [some wMsg] :=
  ⟨by decide,
   (c4_failed_delivery_keeps_last_and_retries wState
     (wOk (wRespHw 1000) TelegramResult.telegramError)
     (wOk (wRespHw 1000) TelegramResult.sent) (wRespHw 1000) (wRespHw 1000)
     wHw wHw [] [] wMsg rfl rfl rfl rfl (by decide) rfl rfl rfl).2.1,
   (c4_failed_delivery_keeps_last_and_retries wState
     (wOk (wRespHw 1000) TelegramResult.telegramError)
     (wOk (wRespHw 1000) TelegramResult.sent) (wRespHw 1000) (wRespHw 1000)
     wHw wHw [] [] wMsg rfl rfl rfl rfl (by decide) rfl rfl rfl).2.2.2⟩

/-! ### C8 -/

/-- C8: `new_message` is never reset between iterations.  If an iteration
formats candidate `m` and ends without `m` having been successfully
delivered (`last_message ≠ m` afterwards, i.e. the delivery attempt of that
iteration failed), and the next iteration's validated response has an empty
submission list, then that next iteration still invokes `send_message`
with the previous iteration's candidate `m`. -/
theorem c8_candidate_survives_empty_iteration (st : LoopState) (inp1 inp2 : IterInput)
    (resp1 resp2 hw1 : PyVal) (rest1 : List PyVal) (m : String)
    (h1f : get_api_answer st.current_timestamp inp1.fetch = Except.ok resp1)
    (h1c : check_response resp1 = Except.ok (hw1 :: rest1))
    (h1p : parse_status hw1 = Except.ok m)
    (hundeliv : (iterate st inp1).1.last_message ≠ some m)
    (h2f : get_api_answer (iterate st inp1).1.current_timestamp inp2.fetch = Except.ok resp2)
    (h2c : check_response resp2 = Except.ok []) :
    (iterate st inp1).1.new_message = some m ∧
    (iterate (iterate st inp1).1 inp2).2 = [some m] := by
  have hm1 : iterMessage st inp1 = some m := by
    unfold iterMessage
    rw [tryBody_parsed _ _ _ _ _ _ _ h1f h1c h1p]
  have hnew : (iterate st inp1).1.new_message = some m := by
    rw [iterate_new_message, hm1]
  have hm2 : iterMessage (iterate st inp1).1 inp2 = (iterate st inp1).1.new_message := by
    unfold iterMessage
    rw [tryBody_empty _ _ _ _ h2f h2c]
  refine ⟨hnew, ?_⟩
  rw [iterate_calls, hm2, hnew]
  simp [hundeliv]

/-- Witness for C8: after a failed delivery, an empty-list iteration still
calls `send_message` with the leftover candidate. -/
theorem c8_candidate_survives_empty_iteration_witness :
    (iterate wState (wOk (wRespHw 900) TelegramResult.telegramError)).1.last_message ≠
      some wMsg ∧
    (iterate (iterate wState (wOk (wRespHw 900) TelegramResult.telegramError)).1
        (wOk (wRespEmpty 1000) TelegramResult.sent)).2 = [some wMsg] :=
  ⟨by decide,
   (c8_candidate_survives_empty_iteration wState
     (wOk (wRespHw 900) TelegramResult.telegramError)
     (wOk (wRespEmpty 1000) TelegramResult.sent) (wRespHw 900) (wRespEmpty 1000)
     wHw [] wMsg rfl rfl rfl (by decide) rfl rfl).2⟩

/-! ### C5 -/

theorem dictGet_list_hasKey (entries : List (String × PyVal)) (key : String)
    (xs : List PyVal) (h : dictGet entries key = PyVal.list xs) :
    dictHasKey entries key = true := by
  unfold dictGet at h
  unfold dictHasKey
  cases hl : entries.lookup key with
  | none => rw [hl] at h; simp at h
  | some v => simp

/-- Counterexample to C5: a response whose `current_date` value is present
but not an integer.  The claim says `check_response` must reject it with a
shape error; it is accepted (the value under `current_date` is never
type-checked). -/
theorem c5_counterexample :
    check_response (PyVal.dict [("homeworks", PyVal.list []),
      ("current_date", PyVal.str "not an integer")]) = Except.ok [] := rfl

/-- C5 (amended): `check_response` succeeds iff the response is a dict that
has the key `current_date` (with an arbitrary, uninspected value) and whose
`homeworks` value is a list; equivalently it fails with a shape error
exactly when the response is not a mapping, or `homeworks` is absent or not
a sequence, or `current_date` is absent — the integer check of the claim is
not performed. -/
theorem c5_check_response_ok_iff (response : PyVal) :
    (∃ homeworks, check_response response = Except.ok homeworks) ↔
      (∃ entries homeworks, response = PyVal.dict entries ∧
        dictHasKey entries "current_date" = true ∧
        dictGet entries "homeworks" = PyVal.list homeworks) := by
  constructor
  · rintro ⟨hws, h⟩
    cases response with
    | dict entries =>
      refine ⟨entries, ?_⟩
      cases h1 : dictHasKey entries "homeworks" with
      | false => simp [check_response, h1] at h
      | true =>
        cases h2 : dictHasKey entries "current_date" with
        | false => simp [check_response, h1, h2] at h
        | true =>
          cases hg : dictGet entries "homeworks" with
          | list xs => exact ⟨xs, rfl, rfl, rfl⟩
          | pyNone => simp [check_response, h1, h2, hg] at h
          | int n => simp [check_response, h1, h2, hg] at h
          | str s => simp [check_response, h1, h2, hg] at h
          | bool b => simp [check_response, h1, h2, hg] at h
          | dict es => simp [check_response, h1, h2, hg] at h
    | pyNone => simp [check_response] at h
    | int n => simp [check_response] at h
    | str s => simp [check_response] at h
    | bool b => simp [check_response] at h
    | list xs => simp [check_response] at h
  · rintro ⟨entries, hws, rfl, h2, hg⟩
    have h1 : dictHasKey entries "homeworks" = true := dictGet_list_hasKey _ _ _ hg
    refine ⟨hws, ?_⟩
    simp [check_response, h1, h2, hg]

/-- Witness for the amended C5 at a concrete accepted response. -/
theorem c5_check_response_ok_iff_witness :
    ∃ homeworks, check_response (wRespEmpty 5) = Except.ok homeworks :=
  (c5_check_response_ok_iff (wRespEmpty 5)).2 ⟨_, [], rfl, rfl, rfl⟩

/-! ### C6 -/

/-- Counterexample to C6: a non-2xx response (HTTP 300, which `requests`
does not follow as a redirect and `raise_for_status` does not raise on)
whose body is valid JSON is returned as a success, not classified as
`RequestFailed` as the claim requires of every non-2xx response. -/
theorem c6_counterexample :
    get_api_answer (PyVal.int 0)
      (FetchOutcome.response 300 "300 Multiple Choices" (some (wRespEmpty 1))) =
      Except.ok (wRespEmpty 1) := rfl

/-- C6 (amended): `get_api_answer` classifies outcomes as: connection
failure → `ConnectionError`; timeout → `APITimeoutError`; other transport
exceptions → `APIRequestError`; HTTP 401 → `APIUnauthorized`; HTTP 400 →
`APIIncorrectParametersError`; any other status in 400–599 →
`APIRequestError` carrying the `HTTPError` text; a response whose status is
outside 400–599 (2xx, but also e.g. 300) is returned as the decoded
payload when the body is valid JSON and is an `APIRequestError` when the
body is malformed. -/
theorem c6_api_error_classification (ts : PyVal) (errText : String)
    (body : Option PyVal) (status : Nat) (payload : PyVal) :
    (get_api_answer ts FetchOutcome.connError =
      Except.error (PyErr.connectionError "Возникли проблемы с соединением")) ∧
    (get_api_answer ts FetchOutcome.timeout =
      Except.error (PyErr.apiTimeoutError "Истекло время ожидания ответа  от сервера")) ∧
    (get_api_answer ts FetchOutcome.otherRequestException =
      Except.error (PyErr.apiRequestError
        ("Ошибка при запросе к эндпоинту: " ++ ENDPOINT))) ∧
    (get_api_answer ts (FetchOutcome.response 401 errText body) =
      Except.error (PyErr.apiUnauthorized "Предоставлены некорректные учетные данные")) ∧
    (get_api_answer ts (FetchOutcome.response 400 errText body) =
      Except.error (PyErr.apiIncorrectParametersError
        "Некорректный формат переданного параметра from_date")) ∧
    (400 ≤ status → status < 600 → ¬status = 400 → ¬status = 401 →
      get_api_answer ts (FetchOutcome.response status errText body) =
        Except.error (PyErr.apiRequestError ("HTTPError " ++ errText))) ∧
    (¬(400 ≤ status ∧ status < 600) →
      get_api_answer ts (FetchOutcome.response status errText none) =
        Except.error (PyErr.apiRequestError
          ("Ошибка при запросе к эндпоинту: " ++ ENDPOINT))) ∧
    (¬(400 ≤ status ∧ status < 600) →
      get_api_answer ts (FetchOutcome.response status errText (some payload)) =
        Except.ok payload) := by
  refine ⟨rfl, rfl, rfl, rfl, rfl, ?_, ?_, ?_⟩
  · intro h1 h2 h3 h4
    simp only [get_api_answer]
    rw [if_pos ⟨h1, h2⟩, if_neg h4, if_neg h3]
  · intro h
    simp only [get_api_answer]
    rw [if_neg h]
  · intro h
    simp only [get_api_answer]
    rw [if_neg h]

/-- Witness for the amended C6: a 500 response is a `RequestFailed`, and a
200 response with a malformed body is a `RequestFailed` too. -/
theorem c6_api_error_classification_witness :
    (get_api_answer (PyVal.int 0) (FetchOutcome.response 500 "err" none) =
      Except.error (PyErr.apiRequestError ("HTTPError " ++ "err"))) ∧
    (get_api_answer (PyVal.int 0) (FetchOutcome.response 200 "" none) =
      Except.error (PyErr.apiRequestError
        ("Ошибка при запросе к эндпоинту: " ++ ENDPOINT))) :=
  ⟨(c6_api_error_classification (PyVal.int 0) "err" none 500 PyVal.pyNone).2.2.2.2.2.1
      (by decide) (by decide) (by decide) (by decide),
   (c6_api_error_classification (PyVal.int 0) "" none 200 PyVal.pyNone).2.2.2.2.2.2.1
      (by decide)⟩

/-! ### C7 -/

/-- Counterexample to C7: with the destination identifier missing, the
process does exit before any network call — but `sys.exit()` is called with
no argument, so the exit status is `0`, not non-zero as the claim states. -/
theorem c7_counterexample :
    (main_run c7Env 1700000000 []).exitCode = some 0 ∧
    (main_run c7Env 1700000000 []).apiRequests = 0 ∧
    ¬ ∃ c, (main_run c7Env 1700000000 []).exitCode = some c ∧ c ≠ 0 := by
  refine ⟨rfl, rfl, ?_⟩
  rintro ⟨c, hc, hne⟩
  rw [show (main_run c7Env 1700000000 []).exitCode = some 0 from rfl] at hc
  injection hc with h0
  exact hne h0.symm

/-- C7 (amended): if any of the three required configuration values is
absent at startup, the process exits before any network call is made and
before any notification is sent — with exit status zero (`sys.exit()` with
no argument), not a non-zero status. -/
theorem c7_missing_config_exits_before_network (env : Env) (now : Int)
    (inputs : List IterInput)
    (h : env.PRACTICUM_TOKEN = none ∨ env.TELEGRAM_TOKEN = none ∨
      env.TELEGRAM_CHAT_ID = none) :
    (main_run env now inputs).exitCode = some 0 ∧
    (main_run env now inputs).apiRequests = 0 ∧
    (main_run env now inputs).notifierCalls = [] := by
  have ht : check_tokens env = false := by
    rcases h with h | h | h <;> simp [check_tokens, envTruthy, h]
  simp [main_run, ht]

/-- Witness for the amended C7 at the concrete environment missing the
chat id. -/
theorem c7_missing_config_exits_before_network_witness :
    c7Env.TELEGRAM_CHAT_ID = none ∧
    (main_run c7Env 1700000000 []).exitCode = some 0 ∧
    (main_run c7Env 1700000000 []).apiRequests = 0 :=
  ⟨rfl,
   (c7_missing_config_exits_before_network c7Env 1700000000 [] (Or.inr (Or.inr rfl))).1,
   (c7_missing_config_exits_before_network c7Env 1700000000 [] (Or.inr (Or.inr rfl))).2.1⟩

/-! ### C9 -/

/-- C9: at startup the cursor is `int(time.time() - (30 * 24 * 60 * 60))`,
i.e. the wall-clock time minus 30 days = 2 592 000 seconds — in particular
(for any realistic clock value) neither `0` nor the present moment. -/
theorem c9_initial_cursor_thirty_days (now : Int) (h : 2592000 < now) :
    (initState now).current_timestamp = PyVal.int (now - 30 * 24 * 60 * 60) ∧
    (30 * 24 * 60 * 60 : Int) = 2592000 ∧
    (initState now).current_timestamp ≠ PyVal.int 0 ∧
    (initState now).current_timestamp ≠ PyVal.int now := by
  refine ⟨rfl, by norm_num, ?_, ?_⟩
  · simp only [initState, initial_timestamp, ne_eq, PyVal.int.injEq]
    omega
  · simp only [initState, initial_timestamp, ne_eq, PyVal.int.injEq]
    omega

/-- Witness for C9 at a concrete clock value. -/
theorem c9_initial_cursor_thirty_days_witness :
    (2592000 : Int) < 1700000000 ∧
    (initState 1700000000).current_timestamp =
      PyVal.int (1700000000 - 30 * 24 * 60 * 60) :=
  ⟨by norm_num, (c9_initial_cursor_thirty_days 1700000000 (by norm_num)).1⟩

/-! ### C10 -/

theorem pyIsNone_dictGet_iff (entries : List (String × PyVal)) (key : String) :
    pyIsNone (dictGet entries key) = true ↔
      entries.lookup key = none ∨ entries.lookup key = some PyVal.pyNone := by
  unfold dictGet
  cases h : entries.lookup key with
  | none => simp [pyIsNone]
  | some v => cases v <;> simp [pyIsNone]

/-- C10: `parse_status` on a submission dict raises the missing-field
`KeyError` exactly when the value under `homework_name` or under `status`
is absent or `None` (a key present with value `None` behaves like an absent
key, both making `dict.get` return `None`), and the unknown-status
`ValueError` can only arise once both those checks passed. -/
theorem c10_parse_status_missing_fields (entries : List (String × PyVal)) :
    ((∃ msg, parse_status (PyVal.dict entries) =
        Except.error (PyErr.keyError msg)) ↔
      ((entries.lookup "homework_name" = none ∨
        entries.lookup "homework_name" = some PyVal.pyNone) ∨
       (entries.lookup "status" = none ∨
        entries.lookup "status" = some PyVal.pyNone))) ∧
    (∀ msg, parse_status (PyVal.dict entries) =
        Except.error (PyErr.valueError msg) →
      pyIsNone (dictGet entries "homework_name") = false ∧
      pyIsNone (dictGet entries "status") = false) := by
  constructor
  · by_cases h1 : pyIsNone (dictGet entries "homework_name") = true
    · constructor
      · intro _
        exact Or.inl ((pyIsNone_dictGet_iff entries "homework_name").1 h1)
      · intro _
        exact ⟨"Отсутствует ключ homework_name", by simp [parse_status, h1]⟩
    · by_cases h2 : pyIsNone (dictGet entries "status") = true
      · constructor
        · intro _
          exact Or.inr ((pyIsNone_dictGet_iff entries "status").1 h2)
        · intro _
          exact ⟨"Отсутствует ключ status", by simp [parse_status, h1, h2]⟩
      · constructor
        · rintro ⟨msg, hmsg⟩
          exfalso
          simp only [parse_status] at hmsg
          rw [if_neg h1, if_neg h2] at hmsg
          cases hs : dictGet entries "status" with
          | pyNone => exact h2 (by rw [hs]; rfl)
          | str s =>
            rw [hs] at hmsg
            cases hl : HOMEWORK_STATUSES.lookup s <;>
              simp [statusMember, hl] at hmsg
          | int n => rw [hs] at hmsg; simp [statusMember] at hmsg
          | bool b => rw [hs] at hmsg; simp [statusMember] at hmsg
          | list xs => rw [hs] at hmsg; simp [statusMember] at hmsg
          | dict es => rw [hs] at hmsg; simp [statusMember] at hmsg
        · intro hr
          exfalso
          rcases hr with hr | hr
          · exact h1 ((pyIsNone_dictGet_iff entries "homework_name").2 hr)
          · exact h2 ((pyIsNone_dictGet_iff entries "status").2 hr)
  · intro msg hmsg
    by_cases h1 : pyIsNone (dictGet entries "homework_name") = true
    · exfalso
      simp [parse_status, h1] at hmsg
    · by_cases h2 : pyIsNone (dictGet entries "status") = true
      · exfalso
        simp [parse_status, h1, h2] at hmsg
      · exact ⟨by simpa using h1, by simpa using h2⟩

/-- Witness for C10: a present-but-`None` `homework_name` raises the
missing-field error, and an unknown status raises `ValueError` only with
both fields non-`None`. -/
theorem c10_parse_status_missing_fields_witness :
    (∃ msg, parse_status (PyVal.dict [("homework_name", PyVal.pyNone),
        ("status", PyVal.str "approved")]) =
      Except.error (PyErr.keyError msg)) ∧
    (pyIsNone (dictGet [("homework_name", PyVal.str "x"),
        ("status", PyVal.str "weird")] "homework_name") = false ∧
     pyIsNone (dictGet [("homework_name", PyVal.str "x"),
        ("status", PyVal.str "weird")] "status") = false) :=
  ⟨(c10_parse_status_missing_fields _).1.2 (Or.inl (Or.inr rfl)),
   (c10_parse_status_missing_fields _).2 "Неизвестный статус работы: weird" rfl⟩
